import Mathlib

/-!
A shallow embedding of src/glacier_restore.py.

The script processes a manifest (restore_list.csv) of database backup
objects stored in the S3 Glacier storage class.  Each manifest row is a
`RestoreData` record.  The phases are:

  * `csv_file_check`      : manifest validation (lines 59-137)
  * `file_name_check`     : object resolution by name or by date (lines 140-227),
                            embedded per entry as `file_name_check_entry`
  * `intiate_restore`     : restore initiation (lines 230-278), embedded per
                            entry as `intiate_restore_entry`
  * `check_status`        : status polling (lines 281-346), embedded per entry
                            as `check_status_entry` around `poll_loop`
  * `copy_to_s3`          : the in-place promote/copy step (lines 349-387)

External AWS calls are abstracted by an `S3Env`: a listing function for
list_objects_v2 and a probe function for the head_object existence check.
The successive head_object responses consumed by the polling loop are
supplied explicitly as a list of header values.

Remarks on source slips that sit below the level of this embedding (they
are name-resolution or SDK-parameter typos, not data or control flow):
line 137 calls time.slepp, line 149 reads the loop variable file_name
before its assignment on line 150, line 193 writes s3.Object with braces,
line 247 names the restore parameter RestoreResponse and line 249
GlacierJobParamters, line 296 writes ResponseMetaData, line 329 passes five
arguments to the three-parameter copy_to_s3, and line 366 writes
s3.meta.cleint.  The embedding models the data and control flow that these
statements denote.  Genuine semantic facts (branch conditions, string
reformatting, which fields are checked, which keys are built) are embedded
exactly as written in the source.
-/

namespace GlacierRestore

/-- One row of restore_list.csv (the fields read at lines 63-72). -/
structure RestoreData where
  s3_bucket_name : String
  s3_backup_file_path : String
  sql_server_name : String
  sql_instance_name : String
  sql_database_name : String
  file_name : String
  retrieval_tier : String
  last_modified : String
  email : String
deriving DecidableEq

/-- One element of the Contents list returned by list_objects_v2: a record
holding (at least) the object key. -/
structure S3Content where
  key : String
deriving DecidableEq

/-- Outcome of the head_object existence probe used on the explicit
file-name path of file_name_check (lines 192-196). -/
inductive ProbeOutcome
  | found
  | notFound404
  | otherError
deriving DecidableEq

/-- The external object-storage collaborator: list_objects_v2 keyed by
bucket and key prefix, and the head_object existence probe keyed by bucket
and key. -/
structure S3Env where
  listObjects : String → String → List S3Content
  headProbe : String → String → ProbeOutcome

/-- The derived path, line 68:
s3_backup_file_path/sql_server_name/sql_instance_name/sql_database_name. -/
def base_s3_path (d : RestoreData) : String :=
  d.s3_backup_file_path ++ "/" ++ d.sql_server_name ++ "/" ++ d.sql_instance_name
    ++ "/" ++ d.sql_database_name

/-- Whether one character list starts with another (helper for the Python
substring operator). -/
def listStartsWith : List Char → List Char → Bool
  | [], _ => true
  | _ :: _, [] => false
  | a :: as, b :: bs => a == b && listStartsWith as bs

/-- Whether sub occurs as a contiguous run inside the second list. -/
def hasSubstr (sub : List Char) : List Char → Bool
  | [] => listStartsWith sub []
  | b :: bs => listStartsWith sub (b :: bs) || hasSubstr sub bs

/-- Python membership test sub in s on strings: substring containment. -/
def pyIn (sub s : String) : Bool :=
  hasSubstr sub.data s.data

/-- Python truthiness of the optional x-amz-restore header value: None and
the empty string are falsy. -/
def pyFalsy : Option String → Bool
  | none => true
  | some s => s == ""

/-- Line 100 tests membership of the string sql_database_name in the list
of content records returned by list_objects_v2.  Each element of that list
is a record (a dict in the source), so Python equality between the string
and an element is always False; the test can never succeed. -/
def strEqContentRecord (_s : String) (_c : S3Content) : Bool := false

/-- The required-field test of lines 81-82: the empty string is a member of
the six-tuple (s3_bucket_name, s3_backup_file_path, sql_server_name,
sql_instance_name, sql_database_name, retrieval_tier).  The email field is
not part of this tuple in the source. -/
def missing_required_field (d : RestoreData) : Prop :=
  d.s3_bucket_name = "" ∨ d.s3_backup_file_path = "" ∨ d.sql_server_name = "" ∨
    d.sql_instance_name = "" ∨ d.sql_database_name = "" ∨ d.retrieval_tier = ""

instance (d : RestoreData) : Decidable (missing_required_field d) := by
  unfold missing_required_field; infer_instance

/-- Which alert email template was rendered. -/
inductive AlertKind
  | missingField
  | dbNotFound
  | noFileInfo
  | fileNotFound404
  | unknownError
deriving DecidableEq

/-- An alert email: template kind plus the To recipient list, which the
source always sets to the accumulated global email_list. -/
structure EmailAlert where
  kind : AlertKind
  recipients : List String
deriving DecidableEq

/-- How csv_file_check ended: sys.exit after an alert (lines 97, 115, 132),
or falling through to the success print at line 135 (reached both on normal
loop exhaustion and via the break at line 78). -/
inductive CsvOutcome
  | exited (a : EmailAlert)
  | completed
deriving DecidableEq

/-- Result of csv_file_check: how it ended, the email_list accumulator
afterwards, and the alerts it sent. -/
structure CsvResult where
  outcome : CsvOutcome
  emails : List String
  alerts : List EmailAlert
deriving DecidableEq

/-- csv_file_check, lines 59-137.  Per entry, in source order: append the
email to the global list (line 73); list the bucket under the derived path
and break out of the loop when the Contents list is falsy (lines 76-78);
exit on a missing required field (lines 81-97); exit when the database name
is a member of the Contents list (lines 100-115, a test that can never
succeed, see strEqContentRecord); exit when both file_name and
last_modified are empty (lines 118-132). -/
def csv_file_check (env : S3Env) : List String → List RestoreData → CsvResult
  | emails, [] => ⟨.completed, emails, []⟩
  | emails, d :: rest =>
    let emails2 := emails ++ [d.email]
    let contents := env.listObjects d.s3_bucket_name (base_s3_path d)
    if contents.isEmpty then ⟨.completed, emails2, []⟩
    else if missing_required_field d then
      ⟨.exited ⟨.missingField, emails2⟩, emails2, [⟨.missingField, emails2⟩]⟩
    else if contents.any (strEqContentRecord d.sql_database_name) then
      ⟨.exited ⟨.dbNotFound, emails2⟩, emails2, [⟨.dbNotFound, emails2⟩]⟩
    else if d.file_name = "" ∧ d.last_modified = "" then
      ⟨.exited ⟨.noFileInfo, emails2⟩, emails2, [⟨.noFileInfo, emails2⟩]⟩
    else csv_file_check env emails2 rest

/-- Lines 159-160: prepend a zero when the date is not 8 characters long. -/
def pad_last_modified (lm : String) : String :=
  if lm.length ≠ 8 then "0" ++ lm else lm

/-- Line 168: last_modified[4::] followed by last_modified[0:4].  On an
MMDDYYYY input this yields YYYY then MMDD, a year-month-day digit string,
although the comment at line 166 announces a day-month-year conversion. -/
def altered_last_modified (lm : String) : String :=
  (lm.drop 4) ++ (lm.take 4)

/-- The match condition of line 172: partial_s3_path and sql_database_name
and altered_last_modified in file_key, i.e. both strings truthy and the
altered date a substring of the candidate key. -/
def date_key_match (d : RestoreData) (alt : String) (file_key : String) : Bool :=
  decide (base_s3_path d ≠ "") && decide (d.sql_database_name ≠ "") && pyIn alt file_key

/-- The scan of lines 170-189: first listing element whose key satisfies
the match condition wins. -/
def scan_for_date (d : RestoreData) (alt : String) : List S3Content → Option String
  | [] => none
  | c :: rest => if date_key_match d alt c.key then some c.key else scan_for_date d alt rest

/-- The character run after the last slash of a key. -/
def after_last_slash (key : String) : String :=
  String.mk ((key.data.reverse.takeWhile (fun c => c != '/')).reverse)

/-- Lines 175-183: when the key holds a slash, take the run after the last
slash (file_key[file_key.rindex("/")+1:]); otherwise the whole key. -/
def leaf_name (key : String) : String :=
  if pyIn "/" key then after_last_slash key else key

/-- Result of one entry of file_name_check: the returned (file_name,
file_key) pair when the function returns on this entry, the possibly
updated record, the email accumulator, alerts sent, whether the
no-date-match ERROR message of line 190 was printed, whether the entry was
removed from the list (lines 197, 212), and whether the source would read
an unassigned variable on the taken path (the return of file_key at line
227, which is never assigned on the explicit-name path). -/
structure ResolveResult where
  result : Option (String × String)
  data : RestoreData
  emails : List String
  alerts : List EmailAlert
  errorPrinted : Bool
  removed : Bool
  nameError : Bool
deriving DecidableEq

/-- One entry of file_name_check, lines 140-227.  Append the email (line
153); list the bucket under the derived path (line 155); zero-pad the date
(lines 159-160).  When file_name is empty: reformat the date (line 168) and
scan the listing for the first matching key (lines 170-189), writing the
leaf name back into the record and returning the (file_name, file_key)
pair, else print the ERROR message (line 190).  When file_name is present:
probe the object (line 193; the key the source means to probe is the
derived path plus the file name, though line 149 reads file_name before its
assignment); on a 404 remove the entry and alert (lines 196-210); on any
other client error remove the entry and alert (lines 211-225); otherwise
return (line 227) - a return of a variable never assigned on this path. -/
def file_name_check_entry (env : S3Env) (emails : List String) (d : RestoreData) :
    ResolveResult :=
  let emails2 := emails ++ [d.email]
  let contents := env.listObjects d.s3_bucket_name (base_s3_path d)
  let lm := pad_last_modified d.last_modified
  if d.file_name = "" then
    let alt := altered_last_modified lm
    match scan_for_date d alt contents with
    | some key =>
        let fname := leaf_name key
        ⟨some (fname, key), { d with file_name := fname }, emails2, [], false, false, false⟩
    | none => ⟨none, d, emails2, [], true, false, false⟩
  else
    match env.headProbe d.s3_bucket_name (base_s3_path d ++ "/" ++ d.file_name) with
    | .found => ⟨none, d, emails2, [], false, false, true⟩
    | .notFound404 =>
        ⟨none, d, emails2, [⟨.fileNotFound404, emails2⟩], false, true, false⟩
    | .otherError =>
        ⟨none, d, emails2, [⟨.unknownError, emails2⟩], false, true, false⟩

/-- The key built at lines 234 and 285:
s3_backup_file_path/sql_server_name/sql_instance_name/file_name.  Note the
sql_database_name segment of base_s3_path is absent here. -/
def intiate_s3_key (d : RestoreData) : String :=
  d.s3_backup_file_path ++ "/" ++ d.sql_server_name ++ "/" ++ d.sql_instance_name
    ++ "/" ++ d.file_name

/-- The restore_object call of lines 244-253: bucket, the key of line 234,
Days fixed at 1, Tier from retrieval_tier. -/
structure RestoreCall where
  bucket : String
  key : String
  days : Nat
  tier : String
deriving DecidableEq

def restore_call_of (d : RestoreData) : RestoreCall :=
  ⟨d.s3_bucket_name, intiate_s3_key d, 1, d.retrieval_tier⟩

/-- What the restore_object call did: raised (caught by the bare except at
line 254) or returned with an HTTP status code (line 264). -/
inductive RestoreOutcome
  | exn
  | ok (status : Nat)
deriving DecidableEq

/-- Observable steps of one intiate_restore loop iteration. -/
inductive InitEvent
  | restoreAttempt (c : RestoreCall)
  | copyInvoked (bucket key : String)
  | acceptedInProgress (key : String)
  | failureReported (file_name : String)
deriving DecidableEq

def isRestoreAttemptEvent : InitEvent → Bool
  | .restoreAttempt _ => true
  | _ => false

structure InitResult where
  events : List InitEvent
  emails : List String
deriving DecidableEq

/-- One entry of intiate_restore, lines 230-278.  Append the email (line
238); attempt the restore (lines 243-253); on an exception print the
cannot-be-restored report (lines 255-257); on status 200 invoke copy_to_s3
directly (line 270, no polling); on status 202 leave the entry for the
poller (lines 271-274); on any other status print the error report (lines
275-278).  No branch retries the call.  (Line 240 also re-invokes
file_name_check; its returned pair is not used for the restore key, which
was built at line 234.) -/
def intiate_restore_entry (outcome : RestoreOutcome) (emails : List String)
    (d : RestoreData) : InitResult :=
  let emails2 := emails ++ [d.email]
  let c := restore_call_of d
  let events :=
    match outcome with
    | .exn => [InitEvent.restoreAttempt c, InitEvent.failureReported d.file_name]
    | .ok status =>
        if status = 200 then
          [InitEvent.restoreAttempt c, InitEvent.copyInvoked d.s3_bucket_name (intiate_s3_key d)]
        else if status = 202 then
          [InitEvent.restoreAttempt c, InitEvent.acceptedInProgress (intiate_s3_key d)]
        else [InitEvent.restoreAttempt c, InitEvent.failureReported d.file_name]
  ⟨events, emails2⟩

/-- Observable steps of the polling loop of check_status. -/
inductive PollEvent
  | sleepFor (seconds : Nat)
  | requery
  | copyInvoked (bucket key : String)
  | notifyDone (recipients : List String)
deriving DecidableEq

/-- The while loop of check_status, lines 301-346, driven by the successive
x-amz-restore header values: the current value r and the values the
subsequent head_object calls would return.  A falsy value (header absent):
send the completion-style notification and finish (lines 302-316).  A value
holding "true": sleep for the caller-supplied seconds, re-query, loop
(lines 317-327).  Otherwise: invoke copy_to_s3, then notify completion and
finish (lines 328-346).  The result is none when the supplied responses run
out while the restore is still in progress (the source loop would keep
polling). -/
def poll_loop (seconds : Nat) (bucket key : String) (recipients : List String) :
    Option String → List (Option String) → Option (List PollEvent)
  | r, [] =>
      if pyFalsy r then some [PollEvent.notifyDone recipients]
      else if pyIn "true" (r.getD "") then none
      else some [PollEvent.copyInvoked bucket key, PollEvent.notifyDone recipients]
  | r, r2 :: rs =>
      if pyFalsy r then some [PollEvent.notifyDone recipients]
      else if pyIn "true" (r.getD "") then
        (poll_loop seconds bucket key recipients r2 rs).map
          (fun t => PollEvent.sleepFor seconds :: PollEvent.requery :: t)
      else some [PollEvent.copyInvoked bucket key, PollEvent.notifyDone recipients]

structure PollRun where
  emails : List String
  trace : Option (List PollEvent)
deriving DecidableEq

/-- One entry of check_status, lines 281-346: append the email (line 288),
build the line-285 key, head the object and run the polling loop on the
header values. -/
def check_status_entry (seconds : Nat) (emails : List String) (d : RestoreData)
    (r : Option String) (rs : List (Option String)) : PollRun :=
  let emails2 := emails ++ [d.email]
  ⟨emails2, poll_loop seconds d.s3_bucket_name (intiate_s3_key d) emails2 r rs⟩

/-- Line 359: ContentLength / 1024 / 1024 / 1024 under true division.  The
quotient of an integer byte count by a power of two is exact in the source
float arithmetic for all realistic sizes, so the rational model decides the
threshold comparison identically. -/
def file_size (length : Nat) : ℚ :=
  (length : ℚ) / 1024 / 1024 / 1024

/-- The copy issued by copy_to_s3: source and destination coordinates,
whether the managed multipart path was used, and the metadata handling of
the single-call path. -/
structure CopyCall where
  srcBucket : String
  srcKey : String
  dstBucket : String
  dstKey : String
  multipart : Bool
  metadataDirective : Option String
  metadata : List (String × String)
deriving DecidableEq

/-- copy_to_s3, lines 349-387, with today the run timestamp of line 51.
Size at least 4.99 (decimal GiB, line 361): the managed multipart copy of
line 366 with copy_source equal to the destination bucket and key.
Otherwise: the single copy_object call of lines 379-385 with CopySource
bucket/key equal to the destination, Metadata holding object_restored
stamped with the timestamp, and MetadataDirective REPLACE. -/
def copy_to_s3 (today : String) (s3_bucket_name s3_key : String) (length : Nat) :
    CopyCall :=
  if (499 : ℚ) / 100 ≤ file_size length then
    { srcBucket := s3_bucket_name, srcKey := s3_key,
      dstBucket := s3_bucket_name, dstKey := s3_key,
      multipart := true, metadataDirective := none, metadata := [] }
  else
    { srcBucket := s3_bucket_name, srcKey := s3_key,
      dstBucket := s3_bucket_name, dstKey := s3_key,
      multipart := false, metadataDirective := some "REPLACE",
      metadata := [("object_restored", today)] }

/-- Effect of a copy on an abstract object store mapping (bucket, key)
pairs to object contents: the destination slot receives the source slot. -/
def applyCopy {α : Type} (c : CopyCall) (st : String × String → Option α) :
    String × String → Option α :=
  fun bk => if bk = (c.dstBucket, c.dstKey) then st (c.srcBucket, c.srcKey) else st bk

/-- Events of a whole run, for the pipeline model below. -/
inductive RunEvent
  | alertSent (a : EmailAlert)
  | restoreAttempt (c : RestoreCall)
  | copyInvoked (bucket key : String)
  | acceptedInProgress (key : String)
  | failureReported (file_name : String)
deriving DecidableEq

def isRestoreRunEvent : RunEvent → Bool
  | .restoreAttempt _ => true
  | _ => false

def initEventToRunEvent : InitEvent → RunEvent
  | .restoreAttempt c => .restoreAttempt c
  | .copyInvoked b k => .copyInvoked b k
  | .acceptedInProgress k => .acceptedInProgress k
  | .failureReported f => .failureReported f

/-- Modelled from the spec: the source file defines the phase functions but
contains no driver invoking them; per the spec the run executes manifest
validation first and the later phases only when validation completes, so a
sys.exit during validation ends the run before any restore call.  When
validation exits, the run holds only the alert; otherwise initiation runs
per entry. -/
def run_restore_pipeline (env : S3Env) (outcome : RestoreData → RestoreOutcome)
    (entries : List RestoreData) : List RunEvent :=
  let v := csv_file_check env [] entries
  match v.outcome with
  | .exited a => [RunEvent.alertSent a]
  | .completed =>
      (entries.foldl
        (fun acc d =>
          let r := intiate_restore_entry (outcome d) acc.2 d
          (acc.1 ++ r.events.map initEventToRunEvent, r.emails))
        (([] : List RunEvent), v.emails)).1

/-- A fully populated sample manifest row. -/
def entryFull : RestoreData :=
  ⟨"bkt", "bp", "srv", "inst", "db", "file1.bak", "Standard", "7212021", "user@x"⟩

def entryNoTier : RestoreData := { entryFull with retrieval_tier := "" }

def entryNoEmail : RestoreData := { entryFull with email := "" }

def entryBadBucket : RestoreData := { entryFull with s3_bucket_name := "" }

def entryDateOnly : RestoreData := { entryFull with file_name := "" }

/-- An environment whose every listing holds one object under the derived
path of entryFull, dated 20210721 in year-month-day order. -/
def envListOne : S3Env :=
  ⟨fun _ _ => [⟨"bp/srv/inst/db/f_20210721.bak"⟩], fun _ _ => ProbeOutcome.found⟩

/-- An environment whose every listing is empty. -/
def envNoObjects : S3Env :=
  ⟨fun _ _ => [], fun _ _ => ProbeOutcome.found⟩

/-! Helper lemmas. -/

lemma any_strEqContentRecord_false (s : String) (l : List S3Content) :
    l.any (strEqContentRecord s) = false := by
  induction l with
  | nil => rfl
  | cons c rest ih => simp [List.any_cons, strEqContentRecord, ih]

lemma applyCopy_self {α : Type} (c : CopyCall)
    (st : String × String → Option α)
    (h : (c.srcBucket, c.srcKey) = (c.dstBucket, c.dstKey)) :
    applyCopy c st = st := by
  funext bk
  unfold applyCopy
  by_cases hbk : bk = (c.dstBucket, c.dstKey)
  · rw [if_pos hbk, h, hbk]
  · rw [if_neg hbk]

lemma copy_to_s3_src_eq_dst (today b k : String) (len : Nat) :
    ((copy_to_s3 today b k len).srcBucket, (copy_to_s3 today b k len).srcKey) =
      ((copy_to_s3 today b k len).dstBucket, (copy_to_s3 today b k len).dstKey) := by
  by_cases h : (499 : ℚ) / 100 ≤ file_size len <;> simp [copy_to_s3, h]

/-! C9. -/

/-- C9: the copy step is idempotent at the key level.  Both branches of
copy_to_s3 use a copy source equal to the copy destination (same bucket,
same key), so applying the copy to an abstract object store is the
identity, and applying it twice neither changes the key of the promoted
object nor duplicates it. -/
theorem copy_to_s3_idempotent {α : Type} (today b k : String) (len : Nat)
    (st : String × String → Option α) :
    ((copy_to_s3 today b k len).srcBucket, (copy_to_s3 today b k len).srcKey) =
      ((copy_to_s3 today b k len).dstBucket, (copy_to_s3 today b k len).dstKey) ∧
    applyCopy (copy_to_s3 today b k len) st = st ∧
    applyCopy (copy_to_s3 today b k len) (applyCopy (copy_to_s3 today b k len) st) = st := by
  have h := copy_to_s3_src_eq_dst today b k len
  exact ⟨h, applyCopy_self _ st h, by
    rw [applyCopy_self _ _ h, applyCopy_self _ _ h]⟩

/-! C5. -/

/-- C5: copy_to_s3 size dispatch.  Both paths keep the object at the same
bucket and key; a size of at least the 4.99 decimal-GiB threshold takes the
multipart path; any smaller size takes the single-call path whose metadata
directive is REPLACE and whose new metadata is stamped with the restoration
timestamp. -/
theorem copy_to_s3_size_dispatch (today b k : String) (len : Nat) :
    ((copy_to_s3 today b k len).srcBucket = b ∧ (copy_to_s3 today b k len).srcKey = k ∧
      (copy_to_s3 today b k len).dstBucket = b ∧ (copy_to_s3 today b k len).dstKey = k) ∧
    ((499 : ℚ) / 100 ≤ file_size len → (copy_to_s3 today b k len).multipart = true) ∧
    (¬ (499 : ℚ) / 100 ≤ file_size len →
      (copy_to_s3 today b k len).multipart = false ∧
      (copy_to_s3 today b k len).metadataDirective = some "REPLACE" ∧
      (copy_to_s3 today b k len).metadata = [("object_restored", today)]) := by
  refine ⟨?_, fun h => by simp [copy_to_s3, h], fun h => by simp [copy_to_s3, h]⟩
  by_cases h : (499 : ℚ) / 100 ≤ file_size len <;> simp [copy_to_s3, h]

/-- C5 witness: a 6 GiB object (6442450944 bytes) takes the multipart path
and a 2 GiB object (2147483648 bytes) takes the single-call path with the
REPLACE directive and the timestamp-stamped metadata. -/
theorem copy_to_s3_size_dispatch_witness :
    (copy_to_s3 "ts" "b" "k" 6442450944).multipart = true ∧
    ((copy_to_s3 "ts" "b" "k" 2147483648).multipart = false ∧
      (copy_to_s3 "ts" "b" "k" 2147483648).metadataDirective = some "REPLACE" ∧
      (copy_to_s3 "ts" "b" "k" 2147483648).metadata = [("object_restored", "ts")]) := by
  refine ⟨(copy_to_s3_size_dispatch "ts" "b" "k" 6442450944).2.1 ?_,
    (copy_to_s3_size_dispatch "ts" "b" "k" 2147483648).2.2 ?_⟩
  · show (499 : ℚ) / 100 ≤ file_size 6442450944
    norm_num [file_size]
  · show ¬ (499 : ℚ) / 100 ≤ file_size 2147483648
    norm_num [file_size]

/-! C2. -/

/-- C2: restore-initiation response handling.  Per entry exactly one
restore attempt is made (no automatic retry).  A 200 status invokes the
copy step immediately - the event list holds the attempt and the copy
invocation only, with no polling event.  A 202 status leaves the entry in
progress and invokes no copy.  Any other status, and an exception from the
call, produce a failure report with no copy and no retry. -/
theorem intiate_restore_dispatch (emails : List String) (d : RestoreData)
    (out : RestoreOutcome) :
    ((intiate_restore_entry out emails d).events.countP isRestoreAttemptEvent = 1) ∧
    (out = RestoreOutcome.ok 200 →
      (intiate_restore_entry out emails d).events =
        [InitEvent.restoreAttempt (restore_call_of d),
         InitEvent.copyInvoked d.s3_bucket_name (intiate_s3_key d)]) ∧
    (out = RestoreOutcome.ok 202 →
      (intiate_restore_entry out emails d).events =
        [InitEvent.restoreAttempt (restore_call_of d),
         InitEvent.acceptedInProgress (intiate_s3_key d)]) ∧
    (∀ s, out = RestoreOutcome.ok s → s ≠ 200 → s ≠ 202 →
      (intiate_restore_entry out emails d).events =
        [InitEvent.restoreAttempt (restore_call_of d),
         InitEvent.failureReported d.file_name]) ∧
    (out = RestoreOutcome.exn →
      (intiate_restore_entry out emails d).events =
        [InitEvent.restoreAttempt (restore_call_of d),
         InitEvent.failureReported d.file_name]) := by
  refine ⟨?_, ?_, ?_, ?_, ?_⟩
  · cases out with
    | exn => simp [intiate_restore_entry, isRestoreAttemptEvent]
    | ok s =>
        by_cases h200 : s = 200
        · simp [intiate_restore_entry, h200, isRestoreAttemptEvent]
        · by_cases h202 : s = 202 <;>
            simp [intiate_restore_entry, h200, h202, isRestoreAttemptEvent]
  · intro h; subst h; simp [intiate_restore_entry]
  · intro h; subst h; simp [intiate_restore_entry]
  · intro s h h200 h202; subst h; simp [intiate_restore_entry, h200, h202]
  · intro h; subst h; simp [intiate_restore_entry]

/-- C2 witness: concrete instantiations of the four response scenarios. -/
theorem intiate_restore_dispatch_witness :
    ((intiate_restore_entry (RestoreOutcome.ok 200) [] entryFull).events =
      [InitEvent.restoreAttempt (restore_call_of entryFull),
       InitEvent.copyInvoked entryFull.s3_bucket_name (intiate_s3_key entryFull)]) ∧
    ((intiate_restore_entry (RestoreOutcome.ok 202) [] entryFull).events =
      [InitEvent.restoreAttempt (restore_call_of entryFull),
       InitEvent.acceptedInProgress (intiate_s3_key entryFull)]) ∧
    ((intiate_restore_entry (RestoreOutcome.ok 403) [] entryFull).events =
      [InitEvent.restoreAttempt (restore_call_of entryFull),
       InitEvent.failureReported entryFull.file_name]) ∧
    ((intiate_restore_entry RestoreOutcome.exn [] entryFull).events =
      [InitEvent.restoreAttempt (restore_call_of entryFull),
       InitEvent.failureReported entryFull.file_name]) :=
  ⟨(intiate_restore_dispatch [] entryFull (RestoreOutcome.ok 200)).2.1 rfl,
   (intiate_restore_dispatch [] entryFull (RestoreOutcome.ok 202)).2.2.1 rfl,
   (intiate_restore_dispatch [] entryFull (RestoreOutcome.ok 403)).2.2.2.1 403 rfl
     (by decide) (by decide),
   (intiate_restore_dispatch [] entryFull RestoreOutcome.exn).2.2.2.2 rfl⟩

/-! C3. -/

/-- C3: the 7-digit input 7212021 is zero-padded to 07212021 as the claim
states, but the reformatting of line 168 produces the year-month-day string
20210721, not the day-month-year string 21072021 announced by the comment
at line 166 and by the claim: a key containing the day-month-year substring
does not match, while a key containing the year-month-day substring does. -/
theorem date_reformat_year_first :
    pad_last_modified "7212021" = "07212021" ∧
    altered_last_modified "07212021" = "20210721" ∧
    "20210721" ≠ "21072021" ∧
    scan_for_date entryDateOnly "20210721" [⟨"bp/srv/inst/db/backup_21072021.bak"⟩] = none ∧
    scan_for_date entryDateOnly "20210721" [⟨"bp/srv/inst/db/backup_20210721.bak"⟩] =
      some "bp/srv/inst/db/backup_20210721.bak" := by
  refine ⟨by decide, by decide, by decide, by decide, by decide⟩

/-! C6. -/

/-- C6: when the listing under the derived path yields no objects, the
validator does not fail the entry with a not-found notification - the break
of line 78 silently leaves the loop and the run falls through to the
success message of line 135.  No alert is sent, and the remaining entries
(here a second entry with an empty retrieval tier) are not validated at
all. -/
theorem empty_listing_silent_break :
    (csv_file_check envNoObjects [] [entryFull]).outcome = CsvOutcome.completed ∧
    (csv_file_check envNoObjects [] [entryFull]).alerts = [] ∧
    (csv_file_check envNoObjects [] [entryFull, entryNoTier]).outcome =
      CsvOutcome.completed ∧
    (csv_file_check envNoObjects [] [entryFull, entryNoTier]).alerts = [] := by
  refine ⟨by decide, by decide, by decide, by decide⟩

/-! C8. -/

/-- C8: the restore initiator does issue exactly one restore request per
entry with Days fixed at 1 and the tier from retrieval_tier, but the
request is not addressed to the full key returned by the object resolver:
the key of line 234 omits the sql_database_name segment, and the resolved
pair captured at line 240 is not used for the restore key.  On a concrete
entry resolved by date, the resolver returns the key
bp/srv/inst/db/f_20210721.bak while the restore is addressed to
bp/srv/inst/f_20210721.bak. -/
theorem restore_key_omits_database :
    (file_name_check_entry envListOne [] entryDateOnly).result =
      some ("f_20210721.bak", "bp/srv/inst/db/f_20210721.bak") ∧
    restore_call_of (file_name_check_entry envListOne [] entryDateOnly).data =
      ⟨"bkt", "bp/srv/inst/f_20210721.bak", 1, "Standard"⟩ ∧
    (restore_call_of (file_name_check_entry envListOne [] entryDateOnly).data).key ≠
      "bp/srv/inst/db/f_20210721.bak" ∧
    (intiate_restore_entry (RestoreOutcome.ok 202)
        (file_name_check_entry envListOne [] entryDateOnly).emails
        (file_name_check_entry envListOne [] entryDateOnly).data).events.countP
      isRestoreAttemptEvent = 1 := by
  refine ⟨by decide, by decide, by decide, by decide⟩

/-! C1. -/

/-- C1: behavior of the polling loop per job.  When the x-amz-restore
header is falsy (absent), the job finishes immediately with the
completion-style notification and no copy invocation.  When the header
holds "true" (restore in progress), every terminating trace begins by
sleeping for the caller-supplied interval and re-querying the object
metadata.  When the header is present and does not hold "true" (restore
finished), the trace is exactly one copy invocation followed by the
completion notification. -/
theorem check_status_poller (sec : Nat) (b k : String) (rec : List String)
    (r : Option String) (rs : List (Option String)) :
    (pyFalsy r = true →
      poll_loop sec b k rec r rs = some [PollEvent.notifyDone rec]) ∧
    (∀ s, r = some s → pyIn "true" s = true →
      ∀ t, poll_loop sec b k rec r rs = some t →
        ∃ t2, t = PollEvent.sleepFor sec :: PollEvent.requery :: t2) ∧
    (∀ s, r = some s → pyFalsy r = false → pyIn "true" s = false →
      poll_loop sec b k rec r rs =
        some [PollEvent.copyInvoked b k, PollEvent.notifyDone rec]) := by
  refine ⟨?_, ?_, ?_⟩
  · intro h
    cases rs <;> simp [poll_loop, h]
  · intro s hr htrue t ht
    subst hr
    have hfal : pyFalsy (some s) = false := by
      by_cases hs : s = ""
      · subst hs; exact absurd htrue (by decide)
      · simp [pyFalsy, hs]
    cases rs with
    | nil => simp [poll_loop, hfal, htrue] at ht
    | cons r2 rs2 =>
        rw [poll_loop, if_neg (by simp [hfal]), if_pos (by simpa using htrue)] at ht
        obtain ⟨t0, _, hmap⟩ := Option.map_eq_some'.mp ht
        exact ⟨t0, hmap.symm⟩
  · intro s hr hfal hfalse
    subst hr
    cases rs <;> simp [poll_loop, hfal, hfalse]

/-- C1 witness: the three header scenarios at concrete inputs.  An absent
header finishes with the notification alone; an in-progress header sleeps
and re-queries before anything else; a finished header copies once and
notifies. -/
theorem check_status_poller_witness :
    (poll_loop 5 "b" "k" ["u@x"] none [] = some [PollEvent.notifyDone ["u@x"]]) ∧
    (∃ t2, [PollEvent.sleepFor 5, PollEvent.requery, PollEvent.copyInvoked "b" "k",
        PollEvent.notifyDone ["u@x"]] =
      PollEvent.sleepFor 5 :: PollEvent.requery :: t2) ∧
    (poll_loop 5 "b" "k" ["u@x"] (some "restore finished") [] =
      some [PollEvent.copyInvoked "b" "k", PollEvent.notifyDone ["u@x"]]) :=
  ⟨(check_status_poller 5 "b" "k" ["u@x"] none []).1 (by decide),
   (check_status_poller 5 "b" "k" ["u@x"] (some "restore true")
      [some "restore finished"]).2.1 "restore true" rfl (by decide)
      [PollEvent.sleepFor 5, PollEvent.requery, PollEvent.copyInvoked "b" "k",
        PollEvent.notifyDone ["u@x"]] (by decide),
   (check_status_poller 5 "b" "k" ["u@x"] (some "restore finished") []).2.2
      "restore finished" rfl (by decide) (by decide)⟩

/-! C7. -/

lemma scan_for_date_none (d : RestoreData) (alt : String) :
    ∀ l : List S3Content, (∀ c ∈ l, date_key_match d alt c.key = false) →
      scan_for_date d alt l = none
  | [], _ => rfl
  | c :: rest, h => by
      have hc := h c (List.mem_cons_self c rest)
      rw [scan_for_date, if_neg (by simp [hc])]
      exact scan_for_date_none d alt rest (fun c2 h2 => h c2 (List.mem_cons_of_mem c h2))

lemma scan_for_date_first (d : RestoreData) (alt : String) (c : S3Content)
    (post : List S3Content) (hc : date_key_match d alt c.key = true) :
    ∀ pre : List S3Content, (∀ c2 ∈ pre, date_key_match d alt c2.key = false) →
      scan_for_date d alt (pre ++ c :: post) = some c.key
  | [], _ => by
      rw [List.nil_append, scan_for_date, if_pos hc]
  | c2 :: pre, h => by
      have h2 := h c2 (List.mem_cons_self c2 pre)
      rw [List.cons_append, scan_for_date, if_neg (by simp [h2])]
      exact scan_for_date_first d alt c post hc pre
        (fun c3 h3 => h c3 (List.mem_cons_of_mem c2 h3))

/-- C7: resolution by date when file_name is absent.  When the listing
splits as pre ++ c :: post with every key of pre failing the date match and
the key of c passing it, the first matching key c wins: the resolver
returns the pair of the leaf name (the run after the final path separator)
and the full key, and writes the leaf name back into the file_name field of
the record.  When no key of the listing matches, the resolver returns no
pair and reports the no-match error. -/
theorem file_name_check_by_date (env : S3Env) (emails : List String)
    (d : RestoreData) (hfn : d.file_name = "") :
    (∀ (pre : List S3Content) (c : S3Content) (post : List S3Content),
      env.listObjects d.s3_bucket_name (base_s3_path d) = pre ++ c :: post →
      date_key_match d (altered_last_modified (pad_last_modified d.last_modified))
        c.key = true →
      (∀ c2 ∈ pre,
        date_key_match d (altered_last_modified (pad_last_modified d.last_modified))
          c2.key = false) →
      (file_name_check_entry env emails d).result = some (leaf_name c.key, c.key) ∧
        (file_name_check_entry env emails d).data =
          { d with file_name := leaf_name c.key }) ∧
    ((∀ c ∈ env.listObjects d.s3_bucket_name (base_s3_path d),
      date_key_match d (altered_last_modified (pad_last_modified d.last_modified))
        c.key = false) →
      (file_name_check_entry env emails d).result = none ∧
        (file_name_check_entry env emails d).errorPrinted = true) := by
  constructor
  · intro pre c post hlist hc hpre
    have hscan : scan_for_date d
        (altered_last_modified (pad_last_modified d.last_modified))
        (env.listObjects d.s3_bucket_name (base_s3_path d)) = some c.key := by
      rw [hlist]
      exact scan_for_date_first d _ c post hc pre hpre
    constructor <;> simp [file_name_check_entry, hfn, hscan]
  · intro hall
    have hscan : scan_for_date d
        (altered_last_modified (pad_last_modified d.last_modified))
        (env.listObjects d.s3_bucket_name (base_s3_path d)) = none :=
      scan_for_date_none d _ _ hall
    constructor <;> simp [file_name_check_entry, hfn, hscan]

/-- C7 witness: on a one-element listing whose key carries the reformatted
date, the resolver returns the leaf name with the full key and writes the
leaf name back; on an empty listing it returns nothing and reports the
error. -/
theorem file_name_check_by_date_witness :
    ((file_name_check_entry envListOne [] entryDateOnly).result =
      some (leaf_name "bp/srv/inst/db/f_20210721.bak", "bp/srv/inst/db/f_20210721.bak") ∧
      (file_name_check_entry envListOne [] entryDateOnly).data =
        { entryDateOnly with file_name := leaf_name "bp/srv/inst/db/f_20210721.bak" }) ∧
    ((file_name_check_entry envNoObjects [] entryDateOnly).result = none ∧
      (file_name_check_entry envNoObjects [] entryDateOnly).errorPrinted = true) :=
  ⟨(file_name_check_by_date envListOne [] entryDateOnly rfl).1
      [] ⟨"bp/srv/inst/db/f_20210721.bak"⟩ [] rfl (by decide) (by decide),
   (file_name_check_by_date envNoObjects [] entryDateOnly rfl).2 (by decide)⟩

/-! C4. -/

lemma csv_exits_of_bad (env : S3Env) :
    ∀ (entries : List RestoreData) (emails : List String),
      (∀ d ∈ entries, (env.listObjects d.s3_bucket_name (base_s3_path d)).isEmpty = false) →
      (∃ d ∈ entries, missing_required_field d) →
      ∃ a, (csv_file_check env emails entries).outcome = CsvOutcome.exited a ∧
        a.recipients ≠ []
  | [], _, _, hbad => by simp at hbad
  | d :: rest, emails, hne, hbad => by
      have hcne := hne d (List.mem_cons_self d rest)
      by_cases hmf : missing_required_field d
      · exact ⟨⟨AlertKind.missingField, emails ++ [d.email]⟩,
          by simp [csv_file_check, hcne, hmf], by simp⟩
      · have hany := any_strEqContentRecord_false d.sql_database_name
          (env.listObjects d.s3_bucket_name (base_s3_path d))
        by_cases hfd : d.file_name = "" ∧ d.last_modified = ""
        · exact ⟨⟨AlertKind.noFileInfo, emails ++ [d.email]⟩,
            by simp [csv_file_check, hcne, hmf, hany, hfd], by simp⟩
        · obtain ⟨d2, hd2mem, hd2⟩ := hbad
          have hd2rest : d2 ∈ rest := by
            rcases List.mem_cons.mp hd2mem with h | h
            · exact absurd (h ▸ hd2) hmf
            · exact h
          obtain ⟨a, ha, har⟩ := csv_exits_of_bad env rest (emails ++ [d.email])
            (fun d3 h3 => hne d3 (List.mem_cons_of_mem d h3)) ⟨d2, hd2rest, hd2⟩
          exact ⟨a, by simpa [csv_file_check, hcne, hmf, hany, hfd] using ha, har⟩

/-- C4 amended: for every manifest in which some entry has an empty
required field among the six the source checks (bucket, backup path,
server, instance, database, retrieval tier - the requester email is not
part of the check), and whose entries each list at least one object under
the derived path (otherwise the break of line 78 ends validation early),
the run exits during validation after sending an alert to the accumulated
nonempty recipient list, and no restore call is ever issued. -/
theorem validation_aborts_on_missing_field (env : S3Env)
    (outcome : RestoreData → RestoreOutcome) (entries : List RestoreData)
    (hne : ∀ d ∈ entries,
      (env.listObjects d.s3_bucket_name (base_s3_path d)).isEmpty = false)
    (hbad : ∃ d ∈ entries, missing_required_field d) :
    (∃ a, (csv_file_check env [] entries).outcome = CsvOutcome.exited a ∧
      a.recipients ≠ []) ∧
    ∀ e ∈ run_restore_pipeline env outcome entries, isRestoreRunEvent e = false := by
  obtain ⟨a, ha, har⟩ := csv_exits_of_bad env entries [] hne hbad
  refine ⟨⟨a, ha, har⟩, ?_⟩
  intro e he
  simp only [run_restore_pipeline] at he
  rw [ha] at he
  simp at he
  subst he
  rfl

/-- C4 witness: a single-entry manifest whose retrieval tier is empty, over
an environment listing one object, exits validation with a notified alert
and produces no restore call. -/
theorem validation_aborts_on_missing_field_witness :
    (∃ a, (csv_file_check envListOne [] [entryNoTier]).outcome = CsvOutcome.exited a ∧
      a.recipients ≠ []) ∧
    ∀ e ∈ run_restore_pipeline envListOne (fun _ => RestoreOutcome.ok 202) [entryNoTier],
      isRestoreRunEvent e = false :=
  validation_aborts_on_missing_field envListOne (fun _ => RestoreOutcome.ok 202)
    [entryNoTier] (by decide) (by decide)

/-- C4 counterexample: the claim lists the requester email among the
required fields, but the tuple checked at lines 81-82 omits it.  An entry
whose email is empty and whose other fields are populated passes
validation, the run completes and a restore call is issued. -/
theorem validation_ignores_missing_email :
    entryNoEmail.email = "" ∧
    (csv_file_check envListOne [] [entryNoEmail]).outcome = CsvOutcome.completed ∧
    ∃ e ∈ run_restore_pipeline envListOne (fun _ => RestoreOutcome.ok 202) [entryNoEmail],
      isRestoreRunEvent e = true := by
  refine ⟨by decide, by decide, by decide⟩

/-! C10. -/

lemma csv_alerts_accumulated (env : S3Env) :
    ∀ (entries : List RestoreData) (emails : List String),
      ∀ a ∈ (csv_file_check env emails entries).alerts,
        ∃ n, n < entries.length ∧
          a.recipients = emails ++ ((entries.take (n + 1)).map RestoreData.email)
  | [], emails, a, ha => by simp [csv_file_check] at ha
  | d :: rest, emails, a, ha => by
      by_cases hemp : (env.listObjects d.s3_bucket_name (base_s3_path d)).isEmpty = true
      · simp [csv_file_check, hemp] at ha
      · by_cases hmf : missing_required_field d
        · simp [csv_file_check, hemp, hmf] at ha
          subst ha
          exact ⟨0, by simp, by simp⟩
        · have hany := any_strEqContentRecord_false d.sql_database_name
            (env.listObjects d.s3_bucket_name (base_s3_path d))
          by_cases hfd : d.file_name = "" ∧ d.last_modified = ""
          · simp [csv_file_check, hemp, hmf, hany, hfd] at ha
            subst ha
            exact ⟨0, by simp, by simp⟩
          · have ha2 : a ∈ (csv_file_check env (emails ++ [d.email]) rest).alerts := by
              simpa [csv_file_check, hemp, hmf, hany, hfd] using ha
            obtain ⟨n, hn, hrec⟩ :=
              csv_alerts_accumulated env rest (emails ++ [d.email]) a ha2
            refine ⟨n + 1, by simpa using Nat.succ_lt_succ hn, ?_⟩
            rw [hrec]
            simp [List.take_succ_cons]

lemma poll_loop_notify_recipients (sec : Nat) (b k : String) (rec : List String) :
    ∀ (rs : List (Option String)) (r : Option String) (t : List PollEvent),
      poll_loop sec b k rec r rs = some t →
      ∀ recs, PollEvent.notifyDone recs ∈ t → recs = rec
  | [], r, t, ht, recs, hmem => by
      by_cases h1 : pyFalsy r = true
      · rw [poll_loop, if_pos h1] at ht
        obtain rfl : [PollEvent.notifyDone rec] = t := by injection ht
        simpa using hmem
      · by_cases h2 : pyIn "true" (r.getD "") = true
        · rw [poll_loop, if_neg (by simp [h1]), if_pos h2] at ht
          exact absurd ht (by simp)
        · rw [poll_loop, if_neg (by simp [h1]), if_neg (by simp [h2])] at ht
          obtain rfl : [PollEvent.copyInvoked b k, PollEvent.notifyDone rec] = t := by
            injection ht
          simpa using hmem
  | r2 :: rs2, r, t, ht, recs, hmem => by
      by_cases h1 : pyFalsy r = true
      · rw [poll_loop, if_pos h1] at ht
        obtain rfl : [PollEvent.notifyDone rec] = t := by injection ht
        simpa using hmem
      · by_cases h2 : pyIn "true" (r.getD "") = true
        · rw [poll_loop, if_neg (by simp [h1]), if_pos h2] at ht
          obtain ⟨t0, ht0, hmap⟩ := Option.map_eq_some'.mp ht
          subst hmap
          have hmem0 : PollEvent.notifyDone recs ∈ t0 := by simpa using hmem
          exact poll_loop_notify_recipients sec b k rec rs2 r2 t0 ht0 recs hmem0
        · rw [poll_loop, if_neg (by simp [h1]), if_neg (by simp [h2])] at ht
          obtain rfl : [PollEvent.copyInvoked b k, PollEvent.notifyDone rec] = t := by
            injection ht
          simpa using hmem

lemma file_name_check_entry_emails (env : S3Env) (emails : List String)
    (d : RestoreData) :
    (file_name_check_entry env emails d).emails = emails ++ [d.email] := by
  by_cases h : d.file_name = ""
  · cases hscan : scan_for_date d (altered_last_modified (pad_last_modified d.last_modified))
        (env.listObjects d.s3_bucket_name (base_s3_path d)) with
    | none => simp [file_name_check_entry, h, hscan]
    | some key => simp [file_name_check_entry, h, hscan]
  · cases hprobe : env.headProbe d.s3_bucket_name (base_s3_path d ++ "/" ++ d.file_name) with
    | found => simp [file_name_check_entry, h, hprobe]
    | notFound404 => simp [file_name_check_entry, h, hprobe]
    | otherError => simp [file_name_check_entry, h, hprobe]

lemma file_name_check_entry_alert_recipients (env : S3Env) (emails : List String)
    (d : RestoreData) :
    ∀ a ∈ (file_name_check_entry env emails d).alerts,
      a.recipients = emails ++ [d.email] := by
  intro a ha
  by_cases h : d.file_name = ""
  · cases hscan : scan_for_date d (altered_last_modified (pad_last_modified d.last_modified))
        (env.listObjects d.s3_bucket_name (base_s3_path d)) with
    | none => simp [file_name_check_entry, h, hscan] at ha
    | some key => simp [file_name_check_entry, h, hscan] at ha
  · cases hprobe : env.headProbe d.s3_bucket_name (base_s3_path d ++ "/" ++ d.file_name) with
    | found => simp [file_name_check_entry, h, hprobe] at ha
    | notFound404 =>
        simp [file_name_check_entry, h, hprobe] at ha
        subst ha; rfl
    | otherError =>
        simp [file_name_check_entry, h, hprobe] at ha
        subst ha; rfl

/-- C10 amended: the recipient list is a global append-only accumulator
shared by every phase.  Each of validation, resolution, initiation and
polling appends the requester email of the current entry before acting,
and every notification is addressed to the whole accumulated list: a
validation alert at the i-th entry goes to the initial recipients plus the
emails of entries 1..i, a resolution alert and a polling notification go
to the incoming accumulator plus the current entry email.  Whenever
anything was accumulated before the current entry (an earlier entry or an
earlier phase), a notification is therefore never addressed to only the
requester of the current entry; only the very first notification of a run
can coincide with a single-requester list. -/
theorem email_list_accumulator (env : S3Env) (emails : List String)
    (entries : List RestoreData) (d : RestoreData) (sec : Nat)
    (r : Option String) (rs : List (Option String)) (out : RestoreOutcome)
    (hne : emails ≠ []) :
    (∀ a ∈ (csv_file_check env emails entries).alerts,
      ∃ n, n < entries.length ∧
        a.recipients = emails ++ ((entries.take (n + 1)).map RestoreData.email)) ∧
    ((file_name_check_entry env emails d).emails = emails ++ [d.email] ∧
      ∀ a ∈ (file_name_check_entry env emails d).alerts,
        a.recipients = emails ++ [d.email]) ∧
    (intiate_restore_entry out emails d).emails = emails ++ [d.email] ∧
    ((check_status_entry sec emails d r rs).emails = emails ++ [d.email] ∧
      ∀ t, (check_status_entry sec emails d r rs).trace = some t →
        ∀ recs, PollEvent.notifyDone recs ∈ t → recs = emails ++ [d.email]) ∧
    emails ++ [d.email] ≠ [d.email] := by
  refine ⟨fun a ha => csv_alerts_accumulated env entries emails a ha,
    ⟨file_name_check_entry_emails env emails d,
      file_name_check_entry_alert_recipients env emails d⟩,
    rfl, ⟨rfl, ?_⟩, ?_⟩
  · intro t ht recs hmem
    exact poll_loop_notify_recipients sec d.s3_bucket_name (intiate_s3_key d)
      (emails ++ [d.email]) rs r t ht recs hmem
  · intro hcontra
    have hlen := congrArg List.length hcontra
    simp at hlen
    exact hne hlen

/-- C10 witness: the accumulator facts at a concrete run state that already
holds one earlier recipient. -/
theorem email_list_accumulator_witness :
    (∀ a ∈ (csv_file_check envListOne ["prev@x"] [entryBadBucket]).alerts,
      ∃ n, n < [entryBadBucket].length ∧
        a.recipients = ["prev@x"] ++ (([entryBadBucket].take (n + 1)).map RestoreData.email)) ∧
    ((file_name_check_entry envListOne ["prev@x"] entryFull).emails =
        ["prev@x"] ++ [entryFull.email] ∧
      ∀ a ∈ (file_name_check_entry envListOne ["prev@x"] entryFull).alerts,
        a.recipients = ["prev@x"] ++ [entryFull.email]) ∧
    (intiate_restore_entry (RestoreOutcome.ok 202) ["prev@x"] entryFull).emails =
      ["prev@x"] ++ [entryFull.email] ∧
    ((check_status_entry 5 ["prev@x"] entryFull none []).emails =
        ["prev@x"] ++ [entryFull.email] ∧
      ∀ t, (check_status_entry 5 ["prev@x"] entryFull none []).trace = some t →
        ∀ recs, PollEvent.notifyDone recs ∈ t →
          recs = ["prev@x"] ++ [entryFull.email]) ∧
    ["prev@x"] ++ [entryFull.email] ≠ [entryFull.email] :=
  email_list_accumulator envListOne ["prev@x"] [entryBadBucket] entryFull 5 none []
    (RestoreOutcome.ok 202) (by decide)

/-- C10 counterexample: at the very first entry of a run the accumulator
holds exactly one address, so the missing-field alert is addressed to only
the requester email of that entry, against the claim that a notification
is never addressed to only the requester of the current entry. -/
theorem first_alert_only_current_requester :
    (csv_file_check envListOne [] [entryBadBucket]).alerts =
      [⟨AlertKind.missingField, [entryBadBucket.email]⟩] ∧
    entryBadBucket.email = "user@x" := by
  refine ⟨by decide, by decide⟩

end GlacierRestore
